import Mathlib

/-!
Verification of the serial command/reply protocol driver for the Trinamic
TMCM-140 stepper-motor controller (`acq4/drivers/ThorlabsMFC1/tmcm.py`).

The driver is shallowly embedded below: bytes are natural numbers < 256,
frames are lists of bytes, `struct.pack`/`struct.unpack` become explicit
big-endian byte arithmetic, the serial transport becomes an explicit input
buffer plus a log of written frames, and every Python `raise` site becomes
a constructor of `PyErr`.
-/

namespace TMCM

/-- Big-endian 4-byte encoding of a natural number (used for `struct.pack`
of a 32-bit value; meaningful when the number is below 2^32). -/
def toB4 (n : Nat) : List Nat :=
  [n / 2 ^ 24 % 256, n / 2 ^ 16 % 256, n / 2 ^ 8 % 256, n % 256]

/-- Big-endian reassembly of 4 bytes into a natural number. -/
def fromB4 (b3 b2 b1 b0 : Nat) : Nat :=
  b3 * 2 ^ 24 + b2 * 2 ^ 16 + b1 * 2 ^ 8 + b0

/-- `struct.pack` with format `>I`: unsigned 32-bit big-endian; `struct.error`
(here: `none`) if the value is out of the unsigned range. -/
def packU32 (v : Int) : Option (List Nat) :=
  if 0 ≤ v ∧ v < 2 ^ 32 then some (toB4 v.toNat) else none

/-- `struct.pack` with format `>i`: signed 32-bit big-endian two's complement;
`none` if the value is out of the signed range. -/
def packI32 (v : Int) : Option (List Nat) :=
  if -2 ^ 31 ≤ v ∧ v < 2 ^ 31 then some (toB4 (v % 2 ^ 32).toNat) else none

/-- The dual packing in `TMCM140._send_cmd`: try unsigned first, fall back
to signed on `struct.error`. -/
def packValue (v : Int) : Option (List Nat) :=
  match packU32 v with
  | some bs => some bs
  | none => packI32 v

/-- `struct.unpack` with format `>i` on 4 bytes: big-endian signed 32-bit. -/
def unpackI32 (b3 b2 b1 b0 : Nat) : Int :=
  let n := fromB4 b3 b2 b1 b0
  if n < 2 ^ 31 then (n : Int) else (n : Int) - 2 ^ 32

/-- `struct.pack` with format `B`: a single unsigned byte, `none` if out of
range. -/
def packB (n : Nat) : Option Nat :=
  if n < 256 then some n else none

/-- Checksum of `_send_cmd` and `_get_reply`: sum of the bytes mod 256. -/
def checksum (bs : List Nat) : Nat := bs.sum % 256

/-- The 8-byte body of a request frame:
`struct.pack('>BBBBI', module_addr, cmd_num, type, motor, value)` with the
signed fallback for the value field.  `none` models `struct.error`. -/
def frameBody (moduleAddr cmdNum ty motor : Nat) (value : Int) :
    Option (List Nat) :=
  (packB moduleAddr).bind fun a =>
    (packB cmdNum).bind fun c =>
      (packB ty).bind fun t =>
        (packB motor).bind fun m =>
          (packValue value).map fun vb => [a, c, t, m] ++ vb

/-- The full 9-byte request frame written by `_send_cmd`: the packed body
followed by its checksum byte. -/
def encodeFrame (moduleAddr cmdNum ty motor : Nat) (value : Int) :
    Option (List Nat) :=
  (frameBody moduleAddr cmdNum ty motor value).map
    (fun b => b ++ [checksum b])

/-- `struct.unpack('>BBBBiB', d)` of `_get_reply`: succeeds exactly on
9-byte inputs, reading the value field as signed 32-bit big-endian. -/
def unpackFrame (d : List Nat) :
    Option (Nat × Nat × Nat × Nat × Int × Nat) :=
  match d with
  | [a, b, c, e, v3, v2, v1, v0, ck] =>
    some (a, b, c, e, unpackI32 v3 v2 v1 v0, ck)
  | _ => none

/-- `COMMANDS` table of `tmcm.py` (symbolic command name to opcode). -/
def COMMANDS : List (String × Nat) :=
  [("rol", 2), ("ror", 1), ("mvp", 4), ("mst", 3), ("rfs", 13),
   ("sco", 30), ("cco", 32), ("gco", 31),
   ("sap", 5), ("gap", 6), ("stap", 7), ("rsap", 8),
   ("sgp", 9), ("ggp", 10), ("stgp", 11), ("rsgp", 12),
   ("sio", 14), ("gio", 15),
   ("calc", 19), ("comp", 20), ("jc", 21), ("ja", 22),
   ("csub", 23), ("rsub", 24), ("wait", 27), ("stop", 28),
   ("calcx", 33), ("aap", 34), ("agp", 35), ("aco", 39), ("sac", 29),
   ("stop_application", 128), ("run_application", 129),
   ("step_application", 130), ("reset_application", 131),
   ("start_download", 132), ("stop_download", 133),
   ("get_application_status", 135), ("get_firmware_version", 136),
   ("restore_factory_settings", 137)]

/-- `PARAMETERS` table of `tmcm.py`; negative codes mark read-only
parameters. -/
def PARAMETERS : List (String × Int) :=
  [("target_position", 0), ("actual_position", 1), ("target_speed", 2),
   ("actual_speed", 3), ("maximum_speed", 4), ("maximum_acceleration", 5),
   ("maximum_current", 6), ("standby_current", 7),
   ("target_pos_reached", 8), ("ref_switch_status", 9),
   ("right_limit_switch_status", 10), ("left_limit_switch_status", 11),
   ("right_limit_switch_disable", 12), ("left_limit_switch_disable", 13),
   ("minimum_speed", -130), ("acceleration", -135), ("ramp_mode", 138),
   ("microstep_resolution", 140), ("soft_stop_flag", 149),
   ("ramp_divisor", 153), ("pulse_divisor", 154),
   ("referencing_mode", 193), ("referencing_search_speed", 194),
   ("referencing_switch_speed", 195), ("distance_end_switches", 196),
   ("mixed_decay_threshold", 203), ("freewheeling", 204),
   ("stall_detection_threshold", 205), ("actual_load_value", 206),
   ("driver_error_flags", -208), ("encoder_position", 209),
   ("encoder_prescaler", 210), ("fullstep_threshold", 211),
   ("maximum_encoder_deviation", 212), ("power_down_delay", 214),
   ("absolute_encoder_value", -215)]

/-- `GLOBAL_PARAMETERS` table of `tmcm.py`. -/
def GLOBAL_PARAMETERS : List (String × Int) :=
  [("eeprom_magic", 64), ("baud_rate", 65), ("serial_address", 66),
   ("ascii_mode", 67), ("eeprom_lock", 73), ("auto_start_mode", 77),
   ("tmcl_code_protection", 81), ("coordinate_storage", 84),
   ("tmcl_application_status", 128), ("download_mode", 129),
   ("tmcl_program_counter", 130), ("tick_timer", 132),
   ("random_number", -133)]

/-- `STATUS` table of `tmcm.py`: error status codes and their messages. -/
def STATUS : List (Nat × String) :=
  [(1, "Wrong checksum"), (2, "Invalid command"), (3, "Wrong type"),
   (4, "Invalid value"), (5, "Configuration EEPROM locked"),
   (6, "Command not available")]

/-- One constructor per Python `raise` site reachable in the embedded code. -/
inductive PyErr where
  /-- `struct.error`: a pack field out of range (both packings failed). -/
  | structError
  /-- `KeyError`: a dictionary lookup (`COMMANDS`, `PARAMETERS`,
  `STATUS`, ...) on an absent key. -/
  | keyError
  /-- A failed `assert` statement. -/
  | assertionError
  /-- `raise NotImplementedError()` in `move`. -/
  | notImplementedError
  /-- `TypeError("Parameter %s is read-only.")` in `set_param`/`set_global`. -/
  | readOnlyParameter (param : String)
  /-- `Exception("Refusing to set max_current > 100 ...")` in `set_param`. -/
  | safetyError
  /-- `TypeError` from unpacking a non-pair in `set_params`. -/
  | typeError
  /-- `Exception("Cannot send command; previous reply has not been received
  yet.")` in `_send_cmd`. -/
  | alreadyAwaitingReply
  /-- `Exception("No reply expected.")` in `_get_reply`. -/
  | noReplyExpected
  /-- `TimeoutError` from `SerialDevice.read` when fewer than 9 bytes
  arrive. -/
  | timeoutError
  /-- `Exception("Error: extra data while reading reply.")` in `_get_reply`. -/
  | extraDataError
  /-- `Exception("Invalid checksum reading from controller.")` in
  `_get_reply`. -/
  | checksumError
  /-- The `TypeError` raised inside `TMCMError.__init__`: after storing the
  status and looking the message up in `STATUS`, it calls
  `Exception.__init__(msg)` without `self`, so the intended
  `TMCMError(status)` is never constructed and a bare `TypeError` carrying
  neither status nor message escapes instead. -/
  | initTypeError
deriving DecidableEq

/-- The tuple returned by `_get_reply`: `(reply_addr, module_addr, status,
cmd_num, value, chksum)`. -/
abbrev ReplyTuple := Nat × Nat × Nat × Nat × Int × Nat

/-- The parsing/validation part of `_get_reply`, applied to the 9 bytes
read from the serial port: `struct.unpack('>BBBBiB', d)`, then the checksum
comparison against the sum of the first 8 bytes, then the status test.  A
status below 100 enters `raise TMCMError(status)`, whose `__init__` first
evaluates `msg = STATUS[status]` — `KeyError` when the status is absent
from the table — and then calls `Exception.__init__(msg)` without `self`,
which raises `TypeError`, so the message is computed but discarded and no
`TMCMError` is ever constructed. -/
def parseReply (d : List Nat) : Except PyErr ReplyTuple :=
  match unpackFrame d with
  | none => Except.error PyErr.structError
  | some (ra, ma, status, cn, value, ck) =>
    if ck ≠ checksum (d.take 8) then Except.error PyErr.checksumError
    else if status < 100 then
      match STATUS.lookup status with
      | some _ => Except.error PyErr.initTypeError
      | none => Except.error PyErr.keyError
    else Except.ok (ra, ma, status, cn, value, ck)

/-- The mutable state of a `TMCM140` instance together with its serial
transport: the module address, the `_waiting_for_reply` flag, the bytes
buffered for reading, and the log of frames written to the port. -/
structure TState where
  moduleAddr : Nat
  waitingForReply : Bool
  inBuf : List Nat
  written : List (List Nat)
deriving DecidableEq

/-- `TMCM140._send_cmd`: refuse if a reply is still pending, resolve the
command name, pack the frame (unsigned-then-signed for the value field),
append the checksum, write the 9 bytes and set the pending flag. -/
def sendCmd (cmd : String) (ty motor : Nat) (value : Int) (st : TState) :
    TState × Except PyErr Unit :=
  if st.waitingForReply then (st, Except.error PyErr.alreadyAwaitingReply)
  else
    match COMMANDS.lookup cmd with
    | none => (st, Except.error PyErr.keyError)
    | some cmdNum =>
      match encodeFrame st.moduleAddr cmdNum ty motor value with
      | none => (st, Except.error PyErr.structError)
      | some frame =>
        ({ st with written := st.written ++ [frame],
                   waitingForReply := true }, Except.ok ())

/-- `TMCM140._get_reply`: refuse if no reply is pending; read exactly 9
bytes (the `try/finally` clears the pending flag even on timeout, and a
timeout consumes whatever was buffered); drain the remaining buffered bytes
(`readAll`) and fail if any were present; then parse and validate. -/
def getReply (st : TState) : TState × Except PyErr ReplyTuple :=
  if !st.waitingForReply then (st, Except.error PyErr.noReplyExpected)
  else if st.inBuf.length < 9 then
    ({ st with waitingForReply := false, inBuf := [] },
     Except.error PyErr.timeoutError)
  else
    let d := st.inBuf.take 9
    let rest := st.inBuf.drop 9
    let st1 := { st with waitingForReply := false, inBuf := [] }
    if rest ≠ [] then (st1, Except.error PyErr.extraDataError)
    else
      match parseReply d with
      | Except.error e => (st1, Except.error e)
      | Except.ok parts => (st1, Except.ok parts)

/-- `TMCM140.command`: `_send_cmd` followed by `_get_reply`. -/
def command (cmd : String) (ty motor : Nat) (value : Int) (st : TState) :
    TState × Except PyErr ReplyTuple :=
  match sendCmd cmd ty motor value st with
  | (st1, Except.error e) => (st1, Except.error e)
  | (st1, Except.ok _) => getReply st1

/-- `TMCM140.move`: range-check the position, reject any velocity argument
(`NotImplementedError`, after its own `assert` on the range), then issue
`mvp` with type 1 (relative) or 0 (absolute). -/
def move (pos : Int) (relative : Bool) (velocity : Option Int)
    (st : TState) : TState × Except PyErr ReplyTuple :=
  if -2 ^ 32 ≤ pos ∧ pos < 2 ^ 32 then
    match velocity with
    | some v =>
      if 0 ≤ v ∧ v < 2048 then (st, Except.error PyErr.notImplementedError)
      else (st, Except.error PyErr.assertionError)
    | none => command "mvp" (if relative then 1 else 0) 0 pos st
  else (st, Except.error PyErr.assertionError)

/-- `TMCM140.set_param`: resolve the name, reject negative (read-only)
codes, apply the `maximum_current > 100` safety guard unless `force=True`,
then issue `sap`. -/
def set_param (param : String) (value : Int) (force : Bool) (st : TState) :
    TState × Except PyErr Unit :=
  match PARAMETERS.lookup param with
  | none => (st, Except.error PyErr.keyError)
  | some pnum =>
    if pnum < 0 then (st, Except.error (PyErr.readOnlyParameter param))
    else if pnum = 6 ∧ value > 100 ∧ force = false then
      (st, Except.error PyErr.safetyError)
    else
      match command "sap" pnum.toNat 0 value st with
      | (st1, Except.error e) => (st1, Except.error e)
      | (st1, Except.ok _) => (st1, Except.ok ())

/-- `TMCM140.get_param`: resolve the name through `abs`, issue `gap`, and
return field 4 (the value) of the reply tuple. -/
def get_param (param : String) (st : TState) : TState × Except PyErr Int :=
  match PARAMETERS.lookup param with
  | none => (st, Except.error PyErr.keyError)
  | some code =>
    match command "gap" code.natAbs 0 0 st with
    | (st1, Except.error e) => (st1, Except.error e)
    | (st1, Except.ok (_, _, _, _, v, _)) => (st1, Except.ok v)

/-- `TMCM140.get_global`: resolve the name through `abs` in
`GLOBAL_PARAMETERS`, issue `ggp`, and return the value field. -/
def get_global (param : String) (st : TState) : TState × Except PyErr Int :=
  match GLOBAL_PARAMETERS.lookup param with
  | none => (st, Except.error PyErr.keyError)
  | some code =>
    match command "ggp" code.natAbs 0 0 st with
    | (st1, Except.error e) => (st1, Except.error e)
    | (st1, Except.ok (_, _, _, _, v, _)) => (st1, Except.ok v)

/-- A Python value as it may appear among the keyword arguments of
`set_params`: either a plain integer (the normal usage) or a
(name, value) pair. -/
inductive PyVal where
  | int (i : Int)
  | pair (s : String) (i : Int)
deriving DecidableEq

/-- `TMCM140.set_params`: the source iterates `kwds.values()` — the keys
are dropped — and unpacks each VALUE as a `(param, value)` pair, so a
plain integer value raises `TypeError` before any write is applied. -/
def set_params (kwds : List (String × PyVal)) (st : TState) :
    TState × Except PyErr Unit :=
  match kwds with
  | [] => (st, Except.ok ())
  | (_, v) :: rest =>
    match v with
    | PyVal.int _ => (st, Except.error PyErr.typeError)
    | PyVal.pair p i =>
      match set_param p i false st with
      | (st1, Except.error e) => (st1, Except.error e)
      | (st1, Except.ok _) => set_params rest st1

/-- A concrete idle controller state used by concrete evaluations. -/
def st0 : TState :=
  { moduleAddr := 1, waitingForReply := false, inBuf := [], written := [] }

/-- An idle state whose transport holds a valid `mst` reply followed by one
extra trailing byte. -/
def stA : TState :=
  { moduleAddr := 1, waitingForReply := false,
    inBuf := [2, 1, 100, 3, 0, 0, 0, 0, 106, 0], written := [] }

/-- A state awaiting a reply whose transport holds a valid `mst` reply
followed by one extra trailing byte. -/
def stB : TState :=
  { moduleAddr := 1, waitingForReply := true,
    inBuf := [2, 1, 100, 3, 0, 0, 0, 0, 106, 7], written := [] }

/-- An idle state whose transport holds a valid status-100 reply carrying
the value 42. -/
def stC : TState :=
  { moduleAddr := 1, waitingForReply := false,
    inBuf := [2, 1, 100, 6, 0, 0, 0, 42, 151], written := [] }

/-- Reassembling the four big-endian bytes of a number below 2^32 gives the
number back. -/
theorem fromB4_toB4 (n : Nat) (h : n < 2 ^ 32) :
    fromB4 (n / 2 ^ 24 % 256) (n / 2 ^ 16 % 256) (n / 2 ^ 8 % 256) (n % 256)
      = n := by
  unfold fromB4
  omega

/-- On the range accepted by the dual packing, `packValue` produces the
big-endian bytes of the value reduced mod 2^32. -/
theorem packValue_eq (v : Int) (h1 : -2 ^ 31 ≤ v) (h2 : v < 2 ^ 32) :
    packValue v = some (toB4 (v % 2 ^ 32).toNat) := by
  by_cases h0 : 0 ≤ v
  · have hp : packU32 v = some (toB4 (v % 2 ^ 32).toNat) := by
      unfold packU32
      rw [if_pos ⟨h0, h2⟩]
      congr 2
      omega
    simp [packValue, hp]
  · have hp : packU32 v = none := by
      unfold packU32
      exact if_neg (fun hh => h0 hh.1)
    have hq : packI32 v = some (toB4 (v % 2 ^ 32).toNat) := by
      unfold packI32
      rw [if_pos ⟨h1, by omega⟩]
    simp [packValue, hp, hq]

/-- Unpacking the four big-endian bytes of a number below 2^32 as a signed
32-bit integer yields the number, re-centered into the signed range. -/
theorem unpackI32_toB4 (n : Nat) (h : n < 2 ^ 32) :
    unpackI32 (n / 2 ^ 24 % 256) (n / 2 ^ 16 % 256) (n / 2 ^ 8 % 256)
      (n % 256) = if n < 2 ^ 31 then (n : Int) else (n : Int) - 2 ^ 32 := by
  simp only [unpackI32]
  rw [fromB4_toB4 n h]

/-- Explicit form of a successfully encoded request frame. -/
theorem encodeFrame_eq (a c t m : Nat) (v : Int)
    (ha : a < 256) (hc : c < 256) (ht : t < 256) (hm : m < 256)
    (h1 : -2 ^ 31 ≤ v) (h2 : v < 2 ^ 32) :
    encodeFrame a c t m v =
      some (([a, c, t, m] ++ toB4 (v % 2 ^ 32).toNat) ++
        [checksum ([a, c, t, m] ++ toB4 (v % 2 ^ 32).toNat)]) := by
  simp [encodeFrame, frameBody, packB, packValue_eq v h1 h2, ha, hc, ht, hm]

/-- `_get_reply` never writes to the serial port. -/
theorem getReply_written (st : TState) :
    (getReply st).1.written = st.written := by
  unfold getReply
  split
  · rfl
  · split
    · rfl
    · dsimp only
      split
      · rfl
      · split <;> rfl

/-- Explicit form of a successful `_send_cmd`. -/
theorem sendCmd_eq (cmd : String) (cnum ty motor : Nat) (v : Int)
    (frame : List Nat) (st : TState)
    (hidle : st.waitingForReply = false)
    (hcmd : COMMANDS.lookup cmd = some cnum)
    (henc : encodeFrame st.moduleAddr cnum ty motor v = some frame) :
    sendCmd cmd ty motor v st =
      ({ st with written := st.written ++ [frame]
                 waitingForReply := true }, Except.ok ()) := by
  simp [sendCmd, hidle, hcmd, henc]

/-- A `command` whose arguments encode successfully writes exactly the
encoded frame, whatever the transport replies. -/
theorem command_written (cmd : String) (cnum ty motor : Nat) (v : Int)
    (frame : List Nat) (st : TState)
    (hidle : st.waitingForReply = false)
    (hcmd : COMMANDS.lookup cmd = some cnum)
    (henc : encodeFrame st.moduleAddr cnum ty motor v = some frame) :
    (command cmd ty motor v st).1.written = st.written ++ [frame] := by
  unfold command
  rw [sendCmd_eq cmd cnum ty motor v frame st hidle hcmd henc]
  simpa using getReply_written
    { st with written := st.written ++ [frame], waitingForReply := true }

/-- A `command` run against a buffered 9-byte reply that parses
successfully returns the parsed tuple and leaves the session idle. -/
theorem command_success (cmd : String) (cnum ty motor : Nat) (v : Int)
    (frame : List Nat) (st : TState) (parts : ReplyTuple)
    (hidle : st.waitingForReply = false)
    (hcmd : COMMANDS.lookup cmd = some cnum)
    (henc : encodeFrame st.moduleAddr cnum ty motor v = some frame)
    (hlen : st.inBuf.length = 9)
    (hparse : parseReply st.inBuf = Except.ok parts) :
    command cmd ty motor v st =
      ({ st with waitingForReply := false
                 inBuf := []
                 written := st.written ++ [frame] }, Except.ok parts) := by
  obtain ⟨ma, wf, ib, wr⟩ := st
  simp only at hidle hlen hparse henc
  subst hidle
  unfold command
  rw [sendCmd_eq cmd cnum ty motor v frame _ rfl hcmd henc]
  dsimp only
  unfold getReply
  simp only [Bool.not_true, Bool.false_eq_true, if_false, hlen,
    List.take_of_length_le (le_of_eq hlen), List.drop_eq_nil_of_le (le_of_eq hlen),
    hparse]
  norm_num

/-- Membership from a successful association-list lookup. -/
theorem lookup_mem {α β : Type} [BEq α] [LawfulBEq α] (l : List (α × β))
    (k : α) (v : β) (h : l.lookup k = some v) : (k, v) ∈ l := by
  induction l with
  | nil => simp [List.lookup] at h
  | cons p rest ih =>
    obtain ⟨k', v'⟩ := p
    rw [List.lookup_cons] at h
    split at h
    · next heq =>
      injection h with h'
      subst h'
      have hk : k = k' := eq_of_beq heq
      subst hk
      exact List.mem_cons_self _ _
    · exact List.mem_cons_of_mem _ (ih h)

/-- Every axis-parameter code fits in a byte after taking absolute value. -/
theorem PARAMETERS_natAbs_lt (name : String) (code : Int)
    (h : PARAMETERS.lookup name = some code) : code.natAbs < 256 := by
  have hm := lookup_mem _ _ _ h
  have hall : ∀ p ∈ PARAMETERS, p.2.natAbs < 256 := by decide
  exact hall _ hm

/-- Every global-parameter code fits in a byte after taking absolute
value. -/
theorem GLOBAL_PARAMETERS_natAbs_lt (name : String) (code : Int)
    (h : GLOBAL_PARAMETERS.lookup name = some code) : code.natAbs < 256 := by
  have hm := lookup_mem _ _ _ h
  have hall : ∀ p ∈ GLOBAL_PARAMETERS, p.2.natAbs < 256 := by decide
  exact hall _ hm

/-- Every key of the `STATUS` table is below 100. -/
theorem STATUS_lookup_lt (s : Nat) (msg : String)
    (h : STATUS.lookup s = some msg) : s < 100 := by
  have hm := lookup_mem _ _ _ h
  have hall : ∀ p ∈ STATUS, p.1 < 100 := by decide
  exact hall _ hm

/-- A successful `packValue` always yields a 4-byte big-endian block. -/
theorem packValue_shape (v : Int) (vb : List Nat)
    (h : packValue v = some vb) : ∃ n, vb = toB4 n := by
  unfold packValue packU32 packI32 at h
  by_cases h1 : 0 ≤ v ∧ v < 2 ^ 32
  · rw [if_pos h1] at h
    simp at h
    exact ⟨v.toNat, h.symm⟩
  · rw [if_neg h1] at h
    by_cases h2 : -2 ^ 31 ≤ v ∧ v < 2 ^ 31
    · rw [if_pos h2] at h
      simp at h
      exact ⟨(v % 2 ^ 32).toNat, h.symm⟩
    · rw [if_neg h2] at h
      simp at h

/-- Every successfully encoded frame is an 8-byte body followed by its
checksum byte. -/
theorem encodeFrame_shape (a c t m : Nat) (v : Int) (frame : List Nat)
    (h : encodeFrame a c t m v = some frame) :
    ∃ body, body.length = 8 ∧ frame = body ++ [checksum body] := by
  unfold encodeFrame at h
  obtain ⟨body, hb, rfl⟩ := Option.map_eq_some'.1 h
  refine ⟨body, ?_, rfl⟩
  unfold frameBody at hb
  obtain ⟨a', ha', hb⟩ := Option.bind_eq_some.1 hb
  obtain ⟨c', hc', hb⟩ := Option.bind_eq_some.1 hb
  obtain ⟨t', ht', hb⟩ := Option.bind_eq_some.1 hb
  obtain ⟨m', hm', hb⟩ := Option.bind_eq_some.1 hb
  obtain ⟨vb, hvb, rfl⟩ := Option.map_eq_some'.1 hb
  obtain ⟨n, rfl⟩ := packValue_shape v vb hvb
  rfl

/-- C1 (counterexample): the request value 2^31 is packable as unsigned,
but the reply-side `struct.unpack('>BBBBiB', ...)` reads the value field as
SIGNED, so the round-trip returns -2^31 instead of 2^31. -/
theorem c1_counterexample :
    encodeFrame 1 4 0 0 (2 ^ 31) = some [1, 4, 0, 0, 128, 0, 0, 0, 133] ∧
    unpackFrame [1, 4, 0, 0, 128, 0, 0, 0, 133] =
      some (1, 4, 0, 0, -(2 ^ 31), 133) ∧
    (-(2 ^ 31) : Int) ≠ 2 ^ 31 := by
  refine ⟨rfl, ?_, by norm_num⟩
  norm_num [unpackFrame, unpackI32, fromB4]

/-- C1 (amended): for byte-sized address/opcode/type/motor fields and a
value in [-2^31, 2^32), unpacking the encoded frame recovers the four byte
fields exactly and recovers the value exactly when it lies in
[-2^31, 2^31); a value in [2^31, 2^32) decodes to value - 2^32 (the same
32-bit pattern reinterpreted as signed). -/
theorem c1_value_roundtrip (a c t m : Nat) (v : Int)
    (ha : a < 256) (hc : c < 256) (ht : t < 256) (hm : m < 256)
    (h1 : -2 ^ 31 ≤ v) (h2 : v < 2 ^ 32) :
    ∃ frame ck, encodeFrame a c t m v = some frame ∧
      unpackFrame frame =
        some (a, c, t, m, if v < 2 ^ 31 then v else v - 2 ^ 32, ck) := by
  rw [encodeFrame_eq a c t m v ha hc ht hm h1 h2]
  refine ⟨_, checksum ([a, c, t, m] ++ toB4 (v % 2 ^ 32).toNat), rfl, ?_⟩
  have hXlt : (v % 2 ^ 32).toNat < 2 ^ 32 := by omega
  simp only [toB4, List.cons_append, List.nil_append, unpackFrame]
  rw [unpackI32_toB4 _ hXlt]
  have hval : (if (v % 2 ^ 32).toNat < 2 ^ 31 then ((v % 2 ^ 32).toNat : Int)
      else ((v % 2 ^ 32).toNat : Int) - 2 ^ 32)
      = if v < 2 ^ 31 then v else v - 2 ^ 32 := by
    split_ifs <;> omega
  rw [hval]

/-- C1 witness: the round-trip at the concrete value -5. -/
theorem c1_value_roundtrip_witness :
    ∃ frame ck, encodeFrame 1 4 0 0 (-5) = some frame ∧
      unpackFrame frame =
        some (1, 4, 0, 0,
          if (-5 : Int) < 2 ^ 31 then (-5 : Int) else -5 - 2 ^ 32, ck) :=
  c1_value_roundtrip 1 4 0 0 (-5) (by norm_num) (by norm_num) (by norm_num)
    (by norm_num) (by norm_num) (by norm_num)

/-- C2: every frame the encoder produces is exactly 9 bytes whose last
byte is the sum of the preceding 8 bytes mod 256, and a 9-byte reply whose
last byte differs from the sum of its first 8 bytes mod 256 makes reply
decoding fail with the checksum error. -/
theorem c2_checksum_rule (a c t m : Nat) (v : Int) (frame : List Nat)
    (b0 b1 b2 b3 b4 b5 b6 b7 ck : Nat)
    (henc : encodeFrame a c t m v = some frame)
    (hbad : ck ≠ (b0 + b1 + b2 + b3 + b4 + b5 + b6 + b7) % 256) :
    (frame.length = 9 ∧
      frame.getLast? = some ((frame.take 8).sum % 256)) ∧
    parseReply [b0, b1, b2, b3, b4, b5, b6, b7, ck] =
      Except.error PyErr.checksumError := by
  constructor
  · obtain ⟨body, hlen, rfl⟩ := encodeFrame_shape a c t m v frame henc
    refine ⟨by simp [hlen], ?_⟩
    rw [List.getLast?_concat]
    rw [List.take_left' hlen]
    rfl
  · have hsum : checksum [b0, b1, b2, b3, b4, b5, b6, b7]
        = (b0 + b1 + b2 + b3 + b4 + b5 + b6 + b7) % 256 := by
      simp [checksum]
      omega
    unfold parseReply unpackFrame
    simp only []
    rw [if_pos]
    show ck ≠ checksum (List.take 8 [b0, b1, b2, b3, b4, b5, b6, b7, ck])
    rw [show List.take 8 [b0, b1, b2, b3, b4, b5, b6, b7, ck]
        = [b0, b1, b2, b3, b4, b5, b6, b7] from rfl]
    rw [hsum]
    exact hbad

/-- C2 witness: the `mst` frame and a corrupted reply. -/
theorem c2_checksum_rule_witness :
    (([1, 3, 0, 0, 0, 0, 0, 0, 4] : List Nat).length = 9 ∧
      ([1, 3, 0, 0, 0, 0, 0, 0, 4] : List Nat).getLast? =
        some ((([1, 3, 0, 0, 0, 0, 0, 0, 4] : List Nat).take 8).sum % 256)) ∧
    parseReply [2, 1, 100, 3, 0, 0, 0, 0, 0] =
      Except.error PyErr.checksumError :=
  c2_checksum_rule 1 3 0 0 0 [1, 3, 0, 0, 0, 0, 0, 0, 4] 2 1 100 3 0 0 0 0 0
    rfl (by norm_num)

/-- C3 (code bug): on a checksum-valid reply with the in-table error
status 2 ("Invalid command"), the decoder fails with the TypeError from
the broken `Exception.__init__(msg)` call in `TMCMError.__init__` — not
with a protocol error carrying the status code and the STATUS message; a
checksum-valid reply with a status below 100 that is absent from the
table (here 0) fails one step earlier, with the KeyError from
`msg = STATUS[status]`; and a status of 100 or more returns the parsed
tuple as the claim states. -/
theorem c3_status_bug :
    parseReply [2, 1, 2, 4, 0, 0, 0, 0, 9] =
      Except.error PyErr.initTypeError ∧
    parseReply [2, 1, 0, 4, 0, 0, 0, 0, 7] = Except.error PyErr.keyError ∧
    parseReply [2, 1, 100, 4, 0, 0, 0, 0, 107] =
      Except.ok (2, 1, 100, 4, 0, 107) :=
  ⟨rfl, rfl, rfl⟩

/-- A `set_param` call that passes the read-only and safety checks writes
exactly the encoded `sap` frame. -/
theorem set_param_written (name : String) (code v : Int) (f : Bool)
    (st : TState)
    (hl : PARAMETERS.lookup name = some code)
    (hnn : 0 ≤ code)
    (hguard : ¬(code = 6 ∧ v > 100 ∧ f = false))
    (frame : List Nat)
    (henc : encodeFrame st.moduleAddr 5 code.toNat 0 v = some frame)
    (hidle : st.waitingForReply = false) :
    (set_param name v f st).1.written = st.written ++ [frame] := by
  have hw := command_written "sap" 5 code.toNat 0 v frame st hidle rfl henc
  simp only [set_param, hl]
  split_ifs with hc1
  · exact absurd hc1 (by omega)
  · rcases hc : command "sap" code.toNat 0 v st with ⟨st1, res⟩
    rw [hc] at hw
    cases res <;> simpa using hw

/-- C4: setting `maximum_current` above 100 without `force` fails with the
safety error and performs no serial exchange; with `force=True`, or for a
value of at most 100, the `sap` write is issued. -/
theorem c4_max_current_guard (v : Int) (st : TState)
    (hidle : st.waitingForReply = false) (haddr : st.moduleAddr < 256)
    (h1 : -2 ^ 31 ≤ v) (h2 : v < 2 ^ 32) :
    (v > 100 → set_param "maximum_current" v false st =
        (st, Except.error PyErr.safetyError)) ∧
    (v > 100 → ∃ frame, encodeFrame st.moduleAddr 5 6 0 v = some frame ∧
      (set_param "maximum_current" v true st).1.written
        = st.written ++ [frame]) ∧
    (v ≤ 100 → ∃ frame, encodeFrame st.moduleAddr 5 6 0 v = some frame ∧
      (set_param "maximum_current" v false st).1.written
        = st.written ++ [frame]) := by
  have hl : PARAMETERS.lookup "maximum_current" = some 6 := rfl
  have henc := encodeFrame_eq st.moduleAddr 5 6 0 v haddr (by norm_num)
    (by norm_num) (by norm_num) h1 h2
  refine ⟨?_, ?_, ?_⟩
  · intro hv
    simp only [set_param, hl]
    rw [if_neg (by norm_num), if_pos (by simp [hv])]
  · intro hv
    exact ⟨_, henc, set_param_written "maximum_current" 6 v true st hl
      (by norm_num) (by simp) _ henc hidle⟩
  · intro hv
    refine ⟨_, henc, set_param_written "maximum_current" 6 v false st hl
      (by norm_num) ?_ _ henc hidle⟩
    intro hcontra
    omega

/-- C4 witness: the guard at the concrete value 150. -/
theorem c4_max_current_guard_witness :
    ((150 : Int) > 100 → set_param "maximum_current" 150 false st0 =
        (st0, Except.error PyErr.safetyError)) ∧
    ((150 : Int) > 100 →
      ∃ frame, encodeFrame st0.moduleAddr 5 6 0 150 = some frame ∧
        (set_param "maximum_current" 150 true st0).1.written
          = st0.written ++ [frame]) ∧
    ((150 : Int) ≤ 100 →
      ∃ frame, encodeFrame st0.moduleAddr 5 6 0 150 = some frame ∧
        (set_param "maximum_current" 150 false st0).1.written
          = st0.written ++ [frame]) :=
  c4_max_current_guard 150 st0 rfl (by decide) (by norm_num) (by norm_num)

/-- C5 (counterexample): `maximum_current` has the non-negative code 6, yet
`setParameter('maximum_current', 150)` does not proceed to the `sap`
command — it fails with the safety error, leaving the state unchanged. -/
theorem c5_counterexample :
    PARAMETERS.lookup "maximum_current" = some 6 ∧ ¬(6 : Int) < 0 ∧
    set_param "maximum_current" 150 false st0 =
      (st0, Except.error PyErr.safetyError) :=
  ⟨rfl, by norm_num, rfl⟩

/-- C5 (amended): a negative-coded parameter write fails with the
read-only error and no serial exchange; a non-negative-coded write
proceeds to the `sap` command except when the `maximum_current` safety
guard applies. -/
theorem c5_readonly_enforcement (name : String) (code v : Int) (f : Bool)
    (st : TState) (hl : PARAMETERS.lookup name = some code)
    (hidle : st.waitingForReply = false) (haddr : st.moduleAddr < 256)
    (h1 : -2 ^ 31 ≤ v) (h2 : v < 2 ^ 32) :
    (code < 0 → set_param name v f st =
        (st, Except.error (PyErr.readOnlyParameter name))) ∧
    (0 ≤ code → ¬(code = 6 ∧ v > 100 ∧ f = false) →
      ∃ frame, encodeFrame st.moduleAddr 5 code.toNat 0 v = some frame ∧
        (set_param name v f st).1.written = st.written ++ [frame]) := by
  refine ⟨?_, ?_⟩
  · intro hneg
    simp only [set_param, hl]
    rw [if_pos hneg]
  · intro hnn hguard
    have hcode : code.toNat < 256 := by
      have := PARAMETERS_natAbs_lt name code hl
      omega
    have henc := encodeFrame_eq st.moduleAddr 5 code.toNat 0 v haddr
      (by norm_num) hcode (by norm_num) h1 h2
    exact ⟨_, henc,
      set_param_written name code v f st hl hnn hguard _ henc hidle⟩

/-- C5 witness: the read-only rejection of `minimum_speed` (code -130). -/
theorem c5_readonly_enforcement_witness :
    ((-130 : Int) < 0 → set_param "minimum_speed" 10 false st0 =
        (st0, Except.error (PyErr.readOnlyParameter "minimum_speed"))) ∧
    ((0 : Int) ≤ -130 →
      ¬((-130 : Int) = 6 ∧ (10 : Int) > 100 ∧ false = false) →
      ∃ frame,
        encodeFrame st0.moduleAddr 5 (-130 : Int).toNat 0 10 = some frame ∧
        (set_param "minimum_speed" 10 false st0).1.written
          = st0.written ++ [frame]) :=
  c5_readonly_enforcement "minimum_speed" (-130) 10 false st0 rfl rfl
    (by decide) (by norm_num) (by norm_num)

/-- C6 (counterexample): a position in [-2^32, -2^31) passes `move`'s own
assertion but fails both packings, so no `mvp` command is issued (a
`struct.error` escapes instead); and a velocity argument outside
[0, 2048) fails with the assertion error, not with NotImplemented. -/
theorem c6_counterexample :
    move (-(2 ^ 32)) false none st0 = (st0, Except.error PyErr.structError) ∧
    move 0 false (some 2048) st0 =
      (st0, Except.error PyErr.assertionError) ∧
    (Except.error PyErr.assertionError : Except PyErr ReplyTuple) ≠
      Except.error PyErr.notImplementedError := by
  refine ⟨rfl, rfl, by simp⟩

/-- C6 (amended): for a position in [-2^31, 2^32) and either value of the
relative flag, `move` with no velocity issues the `mvp` command (opcode 4)
with type 1 (relative) or 0 (absolute) and the position as value; a
velocity argument in [0, 2048) fails with NotImplemented. -/
theorem c6_move (pos : Int) (relative : Bool) (vel : Int) (st : TState)
    (hidle : st.waitingForReply = false) (haddr : st.moduleAddr < 256)
    (hp1 : -2 ^ 31 ≤ pos) (hp2 : pos < 2 ^ 32)
    (hv : 0 ≤ vel ∧ vel < 2048) :
    (∃ frame,
      encodeFrame st.moduleAddr 4 (if relative then 1 else 0) 0 pos
        = some frame ∧
      (move pos relative none st).1.written = st.written ++ [frame]) ∧
    move pos relative (some vel) st =
      (st, Except.error PyErr.notImplementedError) := by
  have hrange : -2 ^ 32 ≤ pos ∧ pos < 2 ^ 32 := ⟨by omega, hp2⟩
  constructor
  · have htb : (if relative then 1 else 0) < 256 := by
      cases relative <;> norm_num
    have henc := encodeFrame_eq st.moduleAddr 4 (if relative then 1 else 0)
      0 pos haddr (by norm_num) htb (by norm_num) hp1 hp2
    refine ⟨_, henc, ?_⟩
    unfold move
    rw [if_pos hrange]
    exact command_written "mvp" 4 _ 0 pos _ st hidle rfl henc
  · unfold move
    rw [if_pos hrange]
    show (if 0 ≤ vel ∧ vel < 2048 then
        (st, Except.error PyErr.notImplementedError)
      else (st, Except.error PyErr.assertionError)) =
      (st, Except.error PyErr.notImplementedError)
    rw [if_pos hv]

/-- C6 witness: a concrete relative move to 7 and a rejected velocity 5. -/
theorem c6_move_witness :
    (∃ frame,
      encodeFrame st0.moduleAddr 4 (if true then 1 else 0) 0 7
        = some frame ∧
      (move 7 true none st0).1.written = st0.written ++ [frame]) ∧
    move 7 true (some 5) st0 =
      (st0, Except.error PyErr.notImplementedError) :=
  c6_move 7 true 5 st0 rfl (by decide) (by norm_num) (by norm_num)
    (by norm_num)

/-- C7 (code bug): `set_params` iterates `kwds.values()` and unpacks each
VALUE as a `(param, value)` pair, so the ordinary call
`set_params(maximum_speed=50)` raises `TypeError` and applies no write at
all, instead of applying one `set_param` write per mapping entry. -/
theorem c7_set_params_bug :
    set_params [("maximum_speed", PyVal.int 50)] st0 =
      (st0, Except.error PyErr.typeError) :=
  rfl

/-- C8 (counterexample): with a reply plus one extra trailing byte
buffered, it is the CURRENT command's reply step that fails with the
extra-data error (having drained the buffer); the next `sendCmd` then
succeeds rather than failing before sending. -/
theorem c8_counterexample :
    (command "mst" 0 0 0 stA).2 = Except.error PyErr.extraDataError ∧
    (command "mst" 0 0 0 stA).1.waitingForReply = false ∧
    (sendCmd "mst" 0 0 0 (command "mst" 0 0 0 stA).1).2 = Except.ok () :=
  ⟨rfl, rfl, rfl⟩

/-- C8 (amended): extra trailing bytes buffered after a 9-byte reply make
the current reply step fail with the extra-data error, draining the buffer
and clearing the awaiting-reply flag, so the next send is not blocked. -/
theorem c8_extra_data (st : TState) (reply extra : List Nat)
    (cmd : String) (ty motor : Nat) (v : Int)
    (hwait : st.waitingForReply = true)
    (hbuf : st.inBuf = reply ++ extra) (hlen : reply.length = 9)
    (hextra : extra ≠ []) :
    getReply st =
      ({ st with waitingForReply := false
                 inBuf := [] }, Except.error PyErr.extraDataError) ∧
    (sendCmd cmd ty motor v (getReply st).1).2 ≠
      Except.error PyErr.alreadyAwaitingReply := by
  have ht : (reply ++ extra).take 9 = reply := by
    rw [← hlen]
    exact List.take_left reply extra
  have hd : (reply ++ extra).drop 9 = extra := by
    rw [← hlen]
    exact List.drop_left reply extra
  have hL : ¬ (reply ++ extra).length < 9 := by
    rw [List.length_append, hlen]
    omega
  have hmain : getReply st =
      ({ st with waitingForReply := false
                 inBuf := [] }, Except.error PyErr.extraDataError) := by
    unfold getReply
    rw [hwait, hbuf]
    dsimp only [Bool.not_true]
    rw [if_neg hL, hd, ht]
    rw [if_pos hextra]
    norm_num
  refine ⟨hmain, ?_⟩
  rw [hmain]
  unfold sendCmd
  rw [if_neg (by simp)]
  cases hcl : COMMANDS.lookup cmd with
  | none => simp
  | some cn =>
    cases hce : encodeFrame st.moduleAddr cn ty motor v with
    | none => simp [hce]
    | some frame => simp [hce]

/-- C8 witness: the amended behaviour at the concrete state `stB`. -/
theorem c8_extra_data_witness :
    (getReply stB =
      ({ stB with waitingForReply := false
                  inBuf := [] }, Except.error PyErr.extraDataError)) ∧
    (sendCmd "mst" 0 0 0 (getReply stB).1).2 ≠
      Except.error PyErr.alreadyAwaitingReply :=
  c8_extra_data stB [2, 1, 100, 3, 0, 0, 0, 0, 106] [7] "mst" 0 0 0 rfl rfl
    rfl (by simp)

/-- `_get_reply` always clears the awaiting-reply flag when it was set,
whatever the outcome (the `try/finally` around the read). -/
theorem getReply_resets (st : TState) (h : st.waitingForReply = true) :
    ((getReply st).1).waitingForReply = false := by
  unfold getReply
  rw [h]
  dsimp only [Bool.not_true]
  split
  · simp_all
  · split
    · rfl
    · split
      · rfl
      · split <;> rfl

/-- C9: starting from an idle session, a full command exchange leaves the
awaiting-reply flag False on every path — normal return, timeout,
extra-data, checksum and protocol-status errors included. -/
theorem c9_idle_invariant (cmd : String) (ty motor : Nat) (v : Int)
    (st : TState) (hidle : st.waitingForReply = false) :
    ((command cmd ty motor v st).1).waitingForReply = false := by
  unfold command sendCmd
  rw [if_neg (by simp [hidle])]
  cases hcl : COMMANDS.lookup cmd with
  | none => exact hidle
  | some cn =>
    dsimp only
    cases hce : encodeFrame st.moduleAddr cn ty motor v with
    | none => exact hidle
    | some frame => exact getReply_resets _ rfl

/-- C9 witness: the invariant at a concrete `mst` exchange (which times
out on the empty transport of `st0`). -/
theorem c9_idle_invariant_witness :
    ((command "mst" 0 0 0 st0).1).waitingForReply = false :=
  c9_idle_invariant "mst" 0 0 0 st0 rfl

/-- C10: both parameter reads resolve the name through the absolute value
of its table code — so negative-coded (read-only) parameters are readable:
every looked-up axis or global parameter leads to a `gap`/`ggp` request
whose type byte is the absolute code, and concretely `minimum_speed`
(code -130) and `random_number` (code -133) reads return the buffered
reply's value. -/
theorem c10_abs_read (st : TState)
    (hidle : st.waitingForReply = false) (haddr : st.moduleAddr < 256) :
    (∀ name code, PARAMETERS.lookup name = some code →
      ∃ frame, encodeFrame st.moduleAddr 6 code.natAbs 0 0 = some frame ∧
        (get_param name st).1.written = st.written ++ [frame]) ∧
    (∀ name code, GLOBAL_PARAMETERS.lookup name = some code →
      ∃ frame, encodeFrame st.moduleAddr 10 code.natAbs 0 0 = some frame ∧
        (get_global name st).1.written = st.written ++ [frame]) ∧
    (st.inBuf = [2, 1, 100, 6, 0, 0, 0, 42, 151] →
      (get_param "minimum_speed" st).2 = Except.ok 42 ∧
      (get_global "random_number" st).2 = Except.ok 42) := by
  refine ⟨?_, ?_, ?_⟩
  · intro name code hl
    have hcode := PARAMETERS_natAbs_lt name code hl
    have henc := encodeFrame_eq st.moduleAddr 6 code.natAbs 0 0 haddr
      (by norm_num) hcode (by norm_num) (by norm_num) (by norm_num)
    refine ⟨_, henc, ?_⟩
    have hw := command_written "gap" 6 code.natAbs 0 0 _ st hidle rfl henc
    simp only [get_param, hl]
    rcases hc : command "gap" code.natAbs 0 0 st with ⟨st1, res⟩
    rw [hc] at hw
    cases res <;> simpa using hw
  · intro name code hl
    have hcode := GLOBAL_PARAMETERS_natAbs_lt name code hl
    have henc := encodeFrame_eq st.moduleAddr 10 code.natAbs 0 0 haddr
      (by norm_num) hcode (by norm_num) (by norm_num) (by norm_num)
    refine ⟨_, henc, ?_⟩
    have hw := command_written "ggp" 10 code.natAbs 0 0 _ st hidle rfl henc
    simp only [get_global, hl]
    rcases hc : command "ggp" code.natAbs 0 0 st with ⟨st1, res⟩
    rw [hc] at hw
    cases res <;> simpa using hw
  · intro hbuf
    constructor
    · have hl : PARAMETERS.lookup "minimum_speed" = some (-130) := rfl
      have henc := encodeFrame_eq st.moduleAddr 6 ((-130 : Int).natAbs) 0 0
        haddr (by norm_num) (by norm_num) (by norm_num) (by norm_num)
        (by norm_num)
      have hcs := command_success "gap" 6 ((-130 : Int).natAbs) 0 0 _ st
        (2, 1, 100, 6, 42, 151) hidle rfl henc (by rw [hbuf]; rfl)
        (by rw [hbuf]; rfl)
      simp only [get_param, hl]
      rw [hcs]
    · have hl : GLOBAL_PARAMETERS.lookup "random_number" = some (-133) := rfl
      have henc := encodeFrame_eq st.moduleAddr 10 ((-133 : Int).natAbs) 0 0
        haddr (by norm_num) (by norm_num) (by norm_num) (by norm_num)
        (by norm_num)
      have hcs := command_success "ggp" 10 ((-133 : Int).natAbs) 0 0 _ st
        (2, 1, 100, 6, 42, 151) hidle rfl henc (by rw [hbuf]; rfl)
        (by rw [hbuf]; rfl)
      simp only [get_global, hl]
      rw [hcs]

/-- C10 witness: the two concrete reads at the state `stC`. -/
theorem c10_abs_read_witness :
    (get_param "minimum_speed" stC).2 = Except.ok 42 ∧
    (get_global "random_number" stC).2 = Except.ok 42 :=
  (c10_abs_read stC rfl (by decide)).2.2 rfl

end TMCM
